import Mathlib

/-!
Verification development for the ipgenpro proxy generation & deduplication
engine.  The definitions below are a shallow embedding of the TypeScript
source: the country resolver `findCountryCode`, the proxy codec
(`formatProxy` / `parseProxyString`), the bounded generation loop of
`generateProxiesWithDuplicateCheck`, and the Supabase-backed duplicate
oracle `checkDuplicateProxies` and batch recorder `saveGeneratedProxies`.

JavaScript string primitives (`split`, `trim`, `toLowerCase`, template
literals, number-to-string interpolation) are modelled by explicit,
structurally recursive functions over `List Char` so that every definition
is kernel-computable.
-/

/-- Model of JavaScript `String.prototype.split` with a one-character
separator: splits on every occurrence, keeps empty segments, and returns
`[""]` on the empty string.  Accumulator-based helper. -/
def jsSplitAux (sep : Char) : List Char → List Char → List (List Char)
  | [], acc => [acc.reverse]
  | c :: rest, acc =>
      if c = sep then acc.reverse :: jsSplitAux sep rest []
      else jsSplitAux sep rest (c :: acc)

/-- `s.split(sep)` over character lists. -/
def jsSplit (sep : Char) (cs : List Char) : List (List Char) :=
  jsSplitAux sep cs []

/-- Model of JavaScript `String.prototype.trim`: drop whitespace from both
ends. -/
def jsTrim (cs : List Char) : List Char :=
  ((cs.dropWhile Char.isWhitespace).reverse.dropWhile Char.isWhitespace).reverse

/-- Lower-cased character data of a string: models `str.toLowerCase()` for
the ASCII inputs this code deals with. -/
def lcData (s : String) : List Char := s.data.map Char.toLower

/-- Boolean prefix test on character lists. -/
def chPfx : List Char → List Char → Bool
  | [], _ => true
  | _ :: _, [] => false
  | a :: as, b :: bs => a == b && chPfx as bs

/-- Boolean contiguous-substring test: models `hay.includes(needle)`. -/
def chSub (needle : List Char) : List Char → Bool
  | [] => chPfx needle []
  | c :: rest => chPfx needle (c :: rest) || chSub needle rest

/-- One country row of the `countries` table in the source. -/
structure Country where
  code : String
  name : String
  flag : String
  aliases : List String
deriving DecidableEq, Repr

/-- The `countries` constant of the source, in source order. -/
def countries : List Country := [
  ⟨"us", "United States", "🇺🇸", ["usa", "united states", "america"]⟩,
  ⟨"uk", "United Kingdom", "🇬🇧", ["united kingdom", "britain", "england", "gb"]⟩,
  ⟨"ca", "Canada", "🇨🇦", ["canada", "can"]⟩,
  ⟨"au", "Australia", "🇦🇺", ["australia", "aus"]⟩,
  ⟨"de", "Germany", "🇩🇪", ["germany", "deutschland", "ger"]⟩,
  ⟨"fr", "France", "🇫🇷", ["france", "fra"]⟩,
  ⟨"jp", "Japan", "🇯🇵", ["japan", "jpn"]⟩,
  ⟨"sg", "Singapore", "🇸🇬", ["singapore", "sgp"]⟩,
  ⟨"nl", "Netherlands", "🇳🇱", ["netherlands", "holland", "nld"]⟩,
  ⟨"br", "Brazil", "🇧🇷", ["brazil", "brasil", "bra"]⟩,
  ⟨"in", "India", "🇮🇳", ["india", "ind"]⟩,
  ⟨"mx", "Mexico", "🇲🇽", ["mexico", "mex"]⟩,
  ⟨"es", "Spain", "🇪🇸", ["spain", "esp"]⟩,
  ⟨"it", "Italy", "🇮🇹", ["italy", "ita"]⟩,
  ⟨"ru", "Russia", "🇷🇺", ["russia", "rus"]⟩,
  ⟨"kr", "South Korea", "🇰🇷", ["korea", "south korea", "kor"]⟩,
  ⟨"se", "Sweden", "🇸🇪", ["sweden", "swe"]⟩,
  ⟨"ch", "Switzerland", "🇨🇭", ["switzerland", "che"]⟩,
  ⟨"at", "Austria", "🇦🇹", ["austria", "aut"]⟩,
  ⟨"be", "Belgium", "🇧🇪", ["belgium", "bel"]⟩,
  ⟨"bd", "Bangladesh", "🇧🇩", ["bangladesh", "bd"]⟩,
  ⟨"pk", "Pakistan", "🇵🇰", ["pakistan", "pk"]⟩,
  ⟨"ae", "UAE", "🇦🇪", ["uae", "emirates", "ae"]⟩,
  ⟨"sa", "Saudi Arabia", "🇸🇦", ["saudi", "saudi arabia", "sa"]⟩]

/-- `[a-z]` character class of the source's regular expressions. -/
def isLowerAlpha (c : Char) : Bool := 'a' ≤ c && c ≤ 'z'

/-- The character class `[_-]` used by the fourth pattern. -/
def isSepUH (c : Char) : Bool := c == '_' || c == '-'

/-- First positional pattern of `findCountryCode`: the regex
`/_([a-z]{2})$/` — an underscore followed by two lowercase letters at the
end of the string; returns the two captured letters. -/
def pat1 (s : List Char) : Option (List Char) :=
  match s.reverse with
  | c :: b :: u :: _ =>
      if u == '_' && isLowerAlpha b && isLowerAlpha c then some [b, c] else none
  | _ => none

/-- Second positional pattern: `/([a-z]{2})$/` — two lowercase letters at
the end of the string. -/
def pat2 (s : List Char) : Option (List Char) :=
  match s.reverse with
  | c :: b :: _ =>
      if isLowerAlpha b && isLowerAlpha c then some [b, c] else none
  | _ => none

/-- Third positional pattern: `/^([a-z]{2})_/` — two lowercase letters at
the start, followed by an underscore. -/
def pat3 (s : List Char) : Option (List Char) :=
  match s with
  | a :: b :: u :: _ =>
      if isLowerAlpha a && isLowerAlpha b && u == '_' then some [a, b] else none
  | _ => none

/-- Fourth positional pattern: `/[_-]([a-z]{2})[_-]/`, leftmost match — two
lowercase letters flanked by `_` or `-`. -/
def pat4 : List Char → Option (List Char)
  | [] => none
  | a :: rest =>
      match rest with
      | b :: c :: d :: _ =>
          if isSepUH a && isLowerAlpha b && isLowerAlpha c && isSepUH d then some [b, c]
          else pat4 rest
      | _ => none

/-- The lookup performed for every extracted positional token:
`countries.find(c => c.code.toLowerCase() === extractedCode ||
c.aliases.some(alias => alias.toLowerCase() === extractedCode))`. -/
def findByCodeOrAlias (extracted : List Char) : Option Country :=
  countries.find? (fun c =>
    lcData c.code == extracted || c.aliases.any (fun al => lcData al == extracted))

/-- Try one positional pattern: the source continues with the next pattern
when the regex matched but the lookup found no country. -/
def tryPat (ext : Option (List Char)) : Option Country :=
  match ext with
  | none => none
  | some e => findByCodeOrAlias e

/-- The country resolver `findCountryCode` of the source: empty input is
rejected, the input is lower-cased and trimmed, the four positional
patterns are tried in order (first pattern whose extracted token matches a
code or alias wins), then exact code match, then exact name/alias match,
then substring match, in table order. -/
def findCountryCode (countryStr : String) : Option String :=
  if countryStr.data.isEmpty then none
  else
    let searchTerm := jsTrim (lcData countryStr)
    match tryPat (pat1 searchTerm) with
    | some c => some c.code
    | none =>
    match tryPat (pat2 searchTerm) with
    | some c => some c.code
    | none =>
    match tryPat (pat3 searchTerm) with
    | some c => some c.code
    | none =>
    match tryPat (pat4 searchTerm) with
    | some c => some c.code
    | none =>
    match countries.find? (fun c => lcData c.code == searchTerm) with
    | some c => some c.code
    | none =>
    match countries.find? (fun c =>
        lcData c.name == searchTerm || c.aliases.any (fun al => lcData al == searchTerm)) with
    | some c => some c.code
    | none =>
    match countries.find? (fun c =>
        chSub searchTerm (lcData c.name) ||
        c.aliases.any (fun al => chSub searchTerm (lcData al)) ||
        chSub (lcData c.name) searchTerm ||
        c.aliases.any (fun al => chSub (lcData al) searchTerm)) with
    | some c => some c.code
    | none => none

/-- Decimal digit character for `n % 10`. -/
def digCh (n : Nat) : Char := Char.ofNat (48 + n % 10)

/-- Decimal numeral of a six-digit number, used to model the template
interpolation of the random session id, which always lies in
`[100000, 999999]`. -/
def sixDigits (n : Nat) : List Char :=
  [digCh (n / 100000), digCh (n / 10000), digCh (n / 1000),
   digCh (n / 100), digCh (n / 10), digCh n]

/-- Decimal numeral of the shard index, which always lies in `[1, 15]`:
one digit below ten, two digits otherwise. -/
def shardChars (d : Nat) : List Char :=
  if d < 10 then [digCh d] else [digCh (d / 10), digCh d]

/-- `Math.floor(Math.random() * 900000) + 100000`, modelled as a function
of an arbitrary seed ranging over the same value set `[100000, 999999]`. -/
def randSession (seed : Nat) : Nat := seed % 900000 + 100000

/-- `Math.floor(Math.random() * 15) + 1`, modelled as a function of an
arbitrary seed ranging over the same value set `[1, 15]`. -/
def randShard (seed : Nat) : Nat := seed % 15 + 1

/-- `host.replace(/s\d+/, "s" + d)`: replace the leftmost occurrence of an
`s` followed by a digit run with `s` followed by the new shard index. -/
def replaceShard (d : Nat) : List Char → List Char
  | [] => []
  | c :: rest =>
      if c == 's' && (match rest with | r :: _ => r.isDigit | [] => false) then
        's' :: shardChars d ++ rest.dropWhile Char.isDigit
      else c :: replaceShard d rest

/-- The generation template: the five fields the generator reads
(`host`, `port`, `userId`, `country`, `password` component state). -/
structure Template where
  host : String
  port : String
  userId : String
  country : String
  password : String
deriving DecidableEq, Repr

/-- Modelled from the spec: the country token the spec says `format`
emits — the template's country with the UK alias rewritten to `gb`, and a
`lv_` marker prepended unless the token already contains an underscore.
Extracted so the composition theorems can name it;
`formatProxy` below inlines the identical computation the way the source
does. -/
def specCountryToken (country : String) : String :=
  let countryCode := if country = "uk" then "gb" else country
  if countryCode.data.contains '_' then countryCode else "lv_" ++ countryCode

/-- One candidate proxy string, as synthesized inside the generation loop
of `generateProxiesWithDuplicateCheck` (lines 283-298 of the component):
random session id, random shard substituted into the host, `uk -> gb`
rewrite, `lv_` prefix unless the country already has an underscore, then
the template literal `host:port:userId-country-session:password`. -/
def formatProxy (t : Template) (sessSeed shardSeed : Nat) : String :=
  let randomSession := randSession sessSeed
  let s8Digit := randShard shardSeed
  let modifiedHost := String.mk (replaceShard s8Digit t.host.data)
  let countryCode := if t.country = "uk" then "gb" else t.country
  let finalCountryCode :=
    if countryCode.data.contains '_' then countryCode else "lv_" ++ countryCode
  modifiedHost ++ ":" ++ t.port ++ ":" ++ t.userId ++ "-" ++ finalCountryCode ++ "-" ++
    String.mk (sixDigits randomSession) ++ ":" ++ t.password

/-- The record produced by `parseProxyString`. -/
structure ParsedProxy where
  host : String
  port : String
  userId : String
  country : String
  sessionId : String
  password : String
deriving DecidableEq, Repr

/-- The parser `parseProxyString` of the source: reject blank input, split
on `:` and require at least four parts, split the trimmed third part on
`-` and require at least three sub-parts, resolve the country through
`findCountryCode` (falling back to the empty string), and otherwise
return `null`. -/
def parseProxyString (proxyStr : String) : Option ParsedProxy :=
  if (jsTrim proxyStr.data).isEmpty then none
  else
    let parts := jsSplit ':' proxyStr.data
    if 4 ≤ parts.length then
      let hostPart := jsTrim (parts.getD 0 [])
      let portPart := jsTrim (parts.getD 1 [])
      let userPart := jsTrim (parts.getD 2 [])
      let passwordPart := jsTrim (parts.getD 3 [])
      let userParts := jsSplit '-' userPart
      if 3 ≤ userParts.length then
        let userIdPart := jsTrim (userParts.getD 0 [])
        let countryPart := jsTrim (userParts.getD 1 [])
        let sessionIdPart := jsTrim (userParts.getD 2 [])
        let detectedCountry := findCountryCode (String.mk countryPart)
        some ⟨String.mk hostPart, String.mk portPart, String.mk userIdPart,
              detectedCountry.getD "", String.mk sessionIdPart, String.mk passwordPart⟩
      else none
    else none

/-- State of the generation loop: the accepted proxies, the `generated`
counter and the `attempts` counter. -/
structure GenState where
  proxies : List String
  generated : Nat
  attempts : Nat
deriving DecidableEq, Repr

/-- Trace of one executed round: the synthesized batch, the duplicate
oracle's single answer for the round, and the candidates kept. -/
structure Round where
  batch : List String
  dups : List String
  accepted : List String
deriving DecidableEq, Repr

/-- The `while (generated < amount && attempts < maxAttempts)` loop of
`generateProxiesWithDuplicateCheck`, with an explicit structural fuel
(every round increases `attempts` by at least one, so fuel
`amount * 10 + 1` from the initial state is never exhausted — proven
below).  Each round synthesizes `min(100, amount - generated)` candidates
(randomness indexed by the global attempt counter, one fresh draw pair per
candidate), asks the oracle once, keeps the candidates the oracle did not
report, and advances the counters.  Also returns the trace of rounds. -/
def genRounds (t : Template) (sS sH : Nat → Nat) (oracle : List String → List String)
    (amount : Nat) : Nat → GenState → GenState × List Round
  | 0, st => (st, [])
  | Nat.succ fuel, st =>
      if st.generated < amount ∧ st.attempts < amount * 10 then
        let batchSize := min 100 (amount - st.generated)
        let batch := (List.range batchSize).map
          (fun i => formatProxy t (sS (st.attempts + i)) (sH (st.attempts + i)))
        let dups := oracle batch
        let uniq := batch.filter (fun p => !(dups.contains p))
        let next := genRounds t sS sH oracle amount fuel
          ⟨st.proxies ++ uniq, st.generated + uniq.length, st.attempts + batchSize⟩
        (next.1, ⟨batch, dups, uniq⟩ :: next.2)
      else (st, [])

/-- Outcome of one `generateProxiesWithDuplicateCheck` call. -/
inductive GenResult where
  | invalidQuantity
  | exhaustedRetries
  | ok (proxies : List String) (shortfall : Nat)
deriving DecidableEq, Repr

/-- `Number.parseInt(bulkAmount) || 1`: an unparsable amount (`NaN`) and
the amount `0` both coerce to `1`; every other integer passes through. -/
def jsParseIntOr1 : Option Int → Int
  | none => 1
  | some v => if v = 0 then 1 else v

/-- The whole `generateProxiesWithDuplicateCheck` call: parse the bulk
amount with the `|| 1` fallback, reject amounts above 5000, run the round
loop from the empty state, and report: `exhaustedRetries` when nothing was
accepted, otherwise the accepted proxies with their shortfall.  A negative
amount makes the JS loop condition `generated < amount` false from the
start, exactly as `Int.toNat` of a negative amount yields a zero bound
here. -/
def generateProxies (t : Template) (sS sH : Nat → Nat)
    (oracle : List String → List String) (bulkAmount : Option Int) : GenResult :=
  let amount : Int := jsParseIntOr1 bulkAmount
  if 5000 < amount then GenResult.invalidQuantity
  else
    let amtN := amount.toNat
    let fin := (genRounds t sS sH oracle amtN (amtN * 10 + 1) ⟨[], 0, 0⟩).1
    if fin.generated = 0 then GenResult.exhaustedRetries
    else GenResult.ok fin.proxies (amtN - fin.generated)

/-- One row of the `generated_proxies` payload built by the commit paths
(`copyBulkToClipboard` / `downloadProxies`). -/
structure ProxyRow where
  proxy_string : String
  host : String
  port : String
  user_id : String
  country : String
  session_id : String
deriving DecidableEq, Repr

/-- The inline re-parsing both commit paths apply to every displayed line
before saving: split on `:` (at least four parts), split the third part on
`-` (at least three sub-parts), no trimming, no country resolution;
non-conforming lines map to `null` and are filtered out. -/
def toProxyData (proxyString : String) : Option ProxyRow :=
  let parts := jsSplit ':' proxyString.data
  if 4 ≤ parts.length then
    let userParts := jsSplit '-' (parts.getD 2 [])
    if 3 ≤ userParts.length then
      some ⟨proxyString, String.mk (parts.getD 0 []), String.mk (parts.getD 1 []),
            String.mk (userParts.getD 0 []), String.mk (userParts.getD 1 []),
            String.mk (userParts.getD 2 [])⟩
    else none
  else none

/-- A persisted `generated_proxies` row: the payload plus the
`api_key_id` and `batch_id` columns added on insert. -/
structure StoredProxy where
  row : ProxyRow
  api_key_id : Nat
  batch_id : Nat
deriving DecidableEq, Repr

/-- A `generation_batches` row as created by the `create_generation_batch`
RPC. -/
structure BatchRow where
  id : Nat
  api_key_id : Nat
  total_generated : Nat
deriving DecidableEq, Repr

/-- The relational store: the `generation_batches` and `generated_proxies`
tables.  The schema puts no uniqueness constraint on `proxy_string` (only
a plain index), so inserts never reject duplicates. -/
structure Store where
  batches : List BatchRow
  proxies : List StoredProxy
deriving DecidableEq, Repr

/-- All persisted proxy strings, in row order. -/
def storeStrings (st : Store) : List String :=
  st.proxies.map (fun e => e.row.proxy_string)

/-- The duplicate oracle `checkDuplicateProxies`: select the stored rows
whose `proxy_string` is among the candidates and return their strings —
but on a query error the source logs and returns `[]`, i.e. it answers
that no duplicates exist. -/
def checkDuplicateProxies (st : Store) (queryFails : Bool)
    (proxyStrings : List String) : List String :=
  if queryFails then []
  else (storeStrings st).filter (fun q => proxyStrings.contains q)

/-- The batch recorder `saveGeneratedProxies`: create a batch row with
`total_generated = proxies.length` via the RPC (a fresh id), then insert
every row tagged with that batch id; each step can fail.  The pair result
carries the store state left behind together with the thrown error or the
returned batch id — on an insert failure the batch row created first
stays in the store. -/
def saveGeneratedProxies (st : Store) (batchFails insertFails : Bool)
    (apiKeyId : Nat) (rows : List ProxyRow) : Store × Except String Nat :=
  if batchFails then (st, Except.error "Failed to create generation batch")
  else
    let batchId := st.batches.length
    let st1 : Store := { st with batches := st.batches ++ [⟨batchId, apiKeyId, rows.length⟩] }
    if insertFails then (st1, Except.error "Failed to save proxies")
    else
      let st2 : Store :=
        { st1 with proxies := st1.proxies ++ rows.map (fun r => ⟨r, apiKeyId, batchId⟩) }
      if rows.length = 0 then
        (st2, Except.error "No proxies were actually inserted into the database.")
      else (st2, Except.ok batchId)

/-- One generate-then-commit action against the live store: run the
generator with the store-backed oracle, and on success parse the displayed
lines back into rows (dropping blank lines, as the commit paths do) and
save them through the batch recorder on the happy path.  Failures leave
the store untouched — the generator itself never writes. -/
def generateThenCommit (t : Template) (sS sH : Nat → Nat) (apiKeyId : Nat)
    (bulkAmount : Option Int) (st : Store) : Store × GenResult :=
  match generateProxies t sS sH (checkDuplicateProxies st false) bulkAmount with
  | GenResult.ok proxies shortfall =>
      let proxyLines := proxies.filter (fun l => !(jsTrim l.data).isEmpty)
      let rows := proxyLines.filterMap toProxyData
      if 0 < rows.length then
        ((saveGeneratedProxies st false false apiKeyId rows).1, GenResult.ok proxies shortfall)
      else (st, GenResult.ok proxies shortfall)
  | r => (st, r)

/-- Modelled from the spec: the per-round contract of §4.4 transcribed as
a checker over the loop trace — every executed round ran only while
`generated < quantity` and `attempts < quantity * 10`, synthesized exactly
`min(100, quantity - generated)` fresh candidates from the per-attempt
randomness, queried the oracle once, kept exactly the candidates the
oracle did not report, and advanced `attempts` by the batch size; the
trace ends exactly when the loop condition fails, with the final state
being the last state. -/
def specRoundsOk (t : Template) (sS sH : Nat → Nat) (oracle : List String → List String)
    (amount : Nat) : GenState → List Round → GenState → Bool
  | st, [], fin =>
      decide (fin = st) && decide (amount ≤ st.generated ∨ amount * 10 ≤ st.attempts)
  | st, r :: rs, fin =>
      decide (st.generated < amount) && decide (st.attempts < amount * 10) &&
      decide (r.batch.length = min 100 (amount - st.generated)) &&
      decide (r.batch = (List.range (min 100 (amount - st.generated))).map
        (fun i => formatProxy t (sS (st.attempts + i)) (sH (st.attempts + i)))) &&
      decide (r.dups = oracle r.batch) &&
      decide (r.accepted = r.batch.filter (fun p => !(r.dups.contains p))) &&
      specRoundsOk t sS sH oracle amount
        ⟨st.proxies ++ r.accepted, st.generated + r.accepted.length,
         st.attempts + r.batch.length⟩ rs fin

/-- A sample template with every field non-empty, used for concrete runs. -/
def sampleTemplate : Template := ⟨"h", "80", "u", "us", "pw"⟩

/-- The end-to-end template of the spec's scenario. -/
def scenarioTemplate : Template := ⟨"b2b-s1.example.com", "8080", "abc", "us", "pw"⟩

/-- A template whose country is free text that the resolver maps to `bd`. -/
def bangladeshTemplate : Template := ⟨"h", "80", "u", "bangladesh", "pw"⟩

/-- A template whose password contains a colon — every field is non-empty,
so the generator accepts it. -/
def colonPasswordTemplate : Template := ⟨"h", "80", "u", "us", "p:w"⟩

/-- The constant-zero randomness seed stream: every candidate of a round
draws the same session id and shard. -/
def zeroSeed : Nat → Nat := fun _ => 0

/-- The proxy string `sampleTemplate` produces under `zeroSeed`. -/
def samplePStr : String := "h:80:u-lv_us-100000:pw"

/-- The row the commit path builds from `samplePStr`. -/
def sampleRow : ProxyRow := ⟨samplePStr, "h", "80", "u", "lv_us", "100000"⟩

/-- The empty store. -/
def emptyStore : Store := ⟨[], []⟩

/-- A store already holding `samplePStr` in one batch. -/
def seededStore : Store := ⟨[⟨0, 7, 1⟩], [⟨sampleRow, 7, 0⟩]⟩

theorem strData_append (a b : String) : (a ++ b).data = a.data ++ b.data := by
  cases a; cases b; rfl

theorem strMk_data (s : String) : String.mk s.data = s := by
  cases s; rfl

theorem jsSplitAux_no_sep (sep : Char) (xs : List Char) (h : sep ∉ xs) :
    ∀ acc, jsSplitAux sep xs acc = [acc.reverse ++ xs] := by
  induction xs with
  | nil => intro acc; simp [jsSplitAux]
  | cons c rest ih =>
      intro acc
      have hc : ¬ c = sep := fun hc => h (hc ▸ List.mem_cons_self c rest)
      have hrest : sep ∉ rest := fun hm => h (List.mem_cons_of_mem _ hm)
      simp [jsSplitAux, hc, ih hrest]

theorem jsSplitAux_sep (sep : Char) (xs ys : List Char) (h : sep ∉ xs) :
    ∀ acc, jsSplitAux sep (xs ++ sep :: ys) acc =
      (acc.reverse ++ xs) :: jsSplitAux sep ys [] := by
  induction xs with
  | nil => intro acc; simp [jsSplitAux]
  | cons c rest ih =>
      intro acc
      have hc : ¬ c = sep := fun hc => h (hc ▸ List.mem_cons_self c rest)
      have hrest : sep ∉ rest := fun hm => h (List.mem_cons_of_mem _ hm)
      simp [jsSplitAux, hc, ih hrest]

theorem dropWhile_eq_self_of_none (p : Char → Bool) (l : List Char)
    (h : ∀ c ∈ l, p c = false) : l.dropWhile p = l := by
  cases l with
  | nil => rfl
  | cons c rest => simp [List.dropWhile_cons, h c (List.mem_cons_self c rest)]

theorem jsTrim_eq_self (l : List Char) (h : ∀ c ∈ l, c.isWhitespace = false) :
    jsTrim l = l := by
  unfold jsTrim
  rw [dropWhile_eq_self_of_none _ _ h,
      dropWhile_eq_self_of_none _ _ (fun c hc => h c (List.mem_reverse.mp hc)),
      List.reverse_reverse]

theorem digCh_props (k : Nat) :
    (digCh k).isWhitespace = false ∧ digCh k ≠ ':' ∧ digCh k ≠ '-' := by
  have h : k % 10 < 10 := Nat.mod_lt _ (by norm_num)
  unfold digCh
  generalize hm : k % 10 = m at *
  interval_cases m <;> exact ⟨by decide, by decide, by decide⟩

theorem mem_shardChars (d : Nat) (c : Char) (h : c ∈ shardChars d) : ∃ k, c = digCh k := by
  unfold shardChars at h
  split at h <;> simp [List.mem_cons] at h
  · exact ⟨d, h⟩
  · rcases h with h | h
    · exact ⟨d / 10, h⟩
    · exact ⟨d, h⟩

theorem mem_replaceShard (d : Nat) (cs : List Char) (c : Char) (h : c ∈ replaceShard d cs) :
    c ∈ cs ∨ c = 's' ∨ ∃ k, c = digCh k := by
  induction cs with
  | nil => simp [replaceShard] at h
  | cons a rest ih =>
      unfold replaceShard at h
      split at h
      · rcases List.mem_cons.mp h with h1 | h2
        · exact Or.inr (Or.inl h1)
        · rcases List.mem_append.mp h2 with h3 | h4
          · exact Or.inr (Or.inr (mem_shardChars d c h3))
          · exact Or.inl (List.mem_cons_of_mem _ ((List.dropWhile_sublist _).mem h4))
      · rcases List.mem_cons.mp h with h1 | h2
        · exact Or.inl (h1 ▸ List.mem_cons_self a rest)
        · rcases ih h2 with h3 | h4
          · exact Or.inl (List.mem_cons_of_mem _ h3)
          · exact Or.inr h4

theorem mem_sixDigits (n : Nat) (c : Char) (h : c ∈ sixDigits n) : ∃ k, c = digCh k := by
  unfold sixDigits at h
  simp [List.mem_cons] at h
  rcases h with h | h | h | h | h | h
  exacts [⟨n / 100000, h⟩, ⟨n / 10000, h⟩, ⟨n / 1000, h⟩, ⟨n / 100, h⟩, ⟨n / 10, h⟩, ⟨n, h⟩]

theorem fmaAppend {P : Char → Prop} {l1 l2 : List Char}
    (h1 : ∀ c ∈ l1, P c) (h2 : ∀ c ∈ l2, P c) : ∀ c ∈ l1 ++ l2, P c := by
  intro c hc
  rcases List.mem_append.mp hc with h | h
  exacts [h1 c h, h2 c h]

theorem fmaCons {P : Char → Prop} {a : Char} {l : List Char}
    (h1 : P a) (h2 : ∀ c ∈ l, P c) : ∀ c ∈ a :: l, P c := by
  intro c hc
  rcases List.mem_cons.mp hc with h | h
  exacts [h ▸ h1, h2 c h]

theorem token_clean_all : countries.all (fun co =>
    (specCountryToken co.code).data.all
      (fun c => !c.isWhitespace && c != ':' && c != '-')) = true := by decide

theorem token_resolves_all : countries.all (fun co =>
    findCountryCode (specCountryToken co.code) == some co.code) = true := by decide

theorem token_clean (s : String) (hs : s ∈ countries.map Country.code) :
    ∀ c ∈ (specCountryToken s).data, c.isWhitespace = false ∧ c ≠ ':' ∧ c ≠ '-' := by
  obtain ⟨co, hco, hcode⟩ := List.mem_map.mp hs
  subst hcode
  intro c hcm
  have h1 := List.all_eq_true.mp token_clean_all co hco
  have h2 := List.all_eq_true.mp h1 c hcm
  simp only [Bool.and_eq_true, Bool.not_eq_true', bne_iff_ne] at h2
  exact ⟨h2.1.1, h2.1.2, h2.2⟩

theorem token_resolves (s : String) (hs : s ∈ countries.map Country.code) :
    findCountryCode (specCountryToken s) = some s := by
  obtain ⟨co, hco, hcode⟩ := List.mem_map.mp hs
  subst hcode
  have h1 := List.all_eq_true.mp token_resolves_all co hco
  exact beq_iff_eq.mp h1

theorem formatProxy_data (t : Template) (a b : Nat) :
    (formatProxy t a b).data =
      replaceShard (randShard b) t.host.data ++
        ':' :: (t.port.data ++
          ':' :: (t.userId.data ++
            '-' :: ((specCountryToken t.country).data ++
              '-' :: (sixDigits (randSession a) ++
                ':' :: t.password.data)))) := by
  unfold formatProxy specCountryToken
  simp [strData_append, List.append_assoc]

theorem parse_format (t : Template) (a b : Nat)
    (hh : ∀ c ∈ t.host.data, c.isWhitespace = false ∧ c ≠ ':')
    (hp : ∀ c ∈ t.port.data, c.isWhitespace = false ∧ c ≠ ':')
    (hu : ∀ c ∈ t.userId.data, c.isWhitespace = false ∧ c ≠ ':' ∧ c ≠ '-')
    (hw : ∀ c ∈ t.password.data, c.isWhitespace = false ∧ c ≠ ':')
    (hc : t.country ∈ countries.map Country.code) :
    parseProxyString (formatProxy t a b) =
      some ⟨String.mk (replaceShard (randShard b) t.host.data), t.port, t.userId, t.country,
            String.mk (sixDigits (randSession a)), t.password⟩ := by
  have tokClean := token_clean t.country hc
  have sessClean : ∀ c ∈ sixDigits (randSession a),
      c.isWhitespace = false ∧ c ≠ ':' ∧ c ≠ '-' := by
    intro c hcm
    obtain ⟨k, hk⟩ := mem_sixDigits _ c hcm
    subst hk
    exact ⟨(digCh_props k).1, (digCh_props k).2.1, (digCh_props k).2.2⟩
  have hostClean : ∀ c ∈ replaceShard (randShard b) t.host.data,
      c.isWhitespace = false ∧ c ≠ ':' := by
    intro c hcm
    rcases mem_replaceShard _ _ c hcm with h1 | h2 | ⟨k, hk⟩
    · exact hh c h1
    · subst h2; exact ⟨by decide, by decide⟩
    · subst hk; exact ⟨(digCh_props k).1, (digCh_props k).2.1⟩
  have hdata4 : (formatProxy t a b).data =
      replaceShard (randShard b) t.host.data ++
        ':' :: (t.port.data ++
          ':' :: ((t.userId.data ++
            '-' :: ((specCountryToken t.country).data ++
              '-' :: sixDigits (randSession a))) ++
                ':' :: t.password.data)) := by
    rw [formatProxy_data]
    simp [List.append_assoc]
  have hHc : ':' ∉ replaceShard (randShard b) t.host.data :=
    fun hmem => ((hostClean _ hmem).2 rfl)
  have hPc : ':' ∉ t.port.data := fun hmem => ((hp _ hmem).2 rfl)
  have hWc : ':' ∉ t.password.data := fun hmem => ((hw _ hmem).2 rfl)
  have hMc : ':' ∉ (t.userId.data ++
      '-' :: ((specCountryToken t.country).data ++ '-' :: sixDigits (randSession a))) := by
    intro hmem
    rcases List.mem_append.mp hmem with h1 | h2
    · exact (hu _ h1).2.1 rfl
    · rcases List.mem_cons.mp h2 with h3 | h4
      · exact absurd h3 (by decide)
      · rcases List.mem_append.mp h4 with h5 | h6
        · exact (tokClean _ h5).2.1 rfl
        · rcases List.mem_cons.mp h6 with h7 | h8
          · exact absurd h7 (by decide)
          · exact (sessClean _ h8).2.1 rfl
  have hnoWsF : ∀ c ∈ (formatProxy t a b).data, c.isWhitespace = false := by
    rw [hdata4]
    exact fmaAppend (fun c h => (hostClean c h).1)
      (fmaCons (by decide)
        (fmaAppend (fun c h => (hp c h).1)
          (fmaCons (by decide)
            (fmaAppend
              (fmaAppend (fun c h => (hu c h).1)
                (fmaCons (by decide)
                  (fmaAppend (fun c h => (tokClean c h).1)
                    (fmaCons (by decide) (fun c h => (sessClean c h).1)))))
              (fmaCons (by decide) (fun c h => (hw c h).1))))))
  have hsplit : jsSplit ':' (formatProxy t a b).data =
      [replaceShard (randShard b) t.host.data, t.port.data,
       t.userId.data ++ '-' :: ((specCountryToken t.country).data ++
         '-' :: sixDigits (randSession a)), t.password.data] := by
    rw [hdata4]
    unfold jsSplit
    rw [jsSplitAux_sep ':' _ _ hHc, jsSplitAux_sep ':' _ _ hPc,
        jsSplitAux_sep ':' _ _ hMc, jsSplitAux_no_sep ':' _ hWc]
    simp
  have hMnoWs : ∀ c ∈ (t.userId.data ++
      '-' :: ((specCountryToken t.country).data ++ '-' :: sixDigits (randSession a))),
      c.isWhitespace = false :=
    fmaAppend (fun c h => (hu c h).1)
      (fmaCons (by decide)
        (fmaAppend (fun c h => (tokClean c h).1)
          (fmaCons (by decide) (fun c h => (sessClean c h).1))))
  have hUd : '-' ∉ t.userId.data := fun hmem => ((hu _ hmem).2.2 rfl)
  have hTd : '-' ∉ (specCountryToken t.country).data :=
    fun hmem => ((tokClean _ hmem).2.2 rfl)
  have hSd : '-' ∉ sixDigits (randSession a) := fun hmem => ((sessClean _ hmem).2.2 rfl)
  have hsplitM : jsSplit '-' (t.userId.data ++
      '-' :: ((specCountryToken t.country).data ++ '-' :: sixDigits (randSession a))) =
      [t.userId.data, (specCountryToken t.country).data, sixDigits (randSession a)] := by
    unfold jsSplit
    rw [jsSplitAux_sep '-' _ _ hUd, jsSplitAux_sep '-' _ _ hTd,
        jsSplitAux_no_sep '-' _ hSd]
    simp
  have hne : ((formatProxy t a b).data).isEmpty = false := by
    rw [hdata4]
    simp
  unfold parseProxyString
  rw [jsTrim_eq_self _ hnoWsF]
  simp only [hne, Bool.false_eq_true, if_false, hsplit]
  simp only [List.length_cons, List.length_nil, List.getD]
  norm_num
  rw [jsTrim_eq_self _ (fun c h => (hp c h).1),
      jsTrim_eq_self _ hMnoWs,
      jsTrim_eq_self _ (fun c h => (hw c h).1),
      jsTrim_eq_self _ (fun c h => (fmaAppend (fun c h => (hostClean c h).1)
        (fun c h => (hostClean c h).1) c (List.mem_append.mpr (Or.inl h)))),
      hsplitM]
  simp only [List.getD, List.length_cons, List.length_nil]
  norm_num
  rw [jsTrim_eq_self _ (fun c h => (hu c h).1),
      jsTrim_eq_self _ (fun c h => (tokClean c h).1),
      jsTrim_eq_self _ (fun c h => (sessClean c h).1),
      strMk_data, token_resolves t.country hc]
  simp [strMk_data]

theorem genRounds_spec (t : Template) (sS sH : Nat → Nat)
    (oracle : List String → List String) (amount : Nat) :
    ∀ fuel st, amount * 10 ≤ st.attempts + fuel → st.generated ≤ amount →
      st.proxies.length = st.generated →
      specRoundsOk t sS sH oracle amount st
          (genRounds t sS sH oracle amount fuel st).2
          (genRounds t sS sH oracle amount fuel st).1 = true ∧
      (genRounds t sS sH oracle amount fuel st).1.generated ≤ amount ∧
      (genRounds t sS sH oracle amount fuel st).1.proxies.length =
        (genRounds t sS sH oracle amount fuel st).1.generated := by
  intro fuel
  induction fuel with
  | zero =>
      intro st h1 h2 h3
      refine ⟨?_, h2, h3⟩
      simp only [genRounds, specRoundsOk, Bool.and_eq_true, decide_eq_true_eq,
        eq_self_iff_true, true_and]
      omega
  | succ fuel ih =>
      intro st h1 h2 h3
      by_cases hcond : st.generated < amount ∧ st.attempts < amount * 10
      · simp only [genRounds, if_pos hcond]
        set bs := min 100 (amount - st.generated) with hbs
        set batch := (List.range bs).map
          (fun i => formatProxy t (sS (st.attempts + i)) (sH (st.attempts + i))) with hbatch
        set dups := oracle batch with hdups
        set uniq := batch.filter (fun p => !(dups.contains p)) with huniq
        have hbs1 : 1 ≤ bs := by omega
        have hlen : batch.length = bs := by simp [hbatch]
        have hul : uniq.length ≤ bs := by
          calc uniq.length ≤ batch.length := by rw [huniq]; exact List.length_filter_le _ _
            _ = bs := hlen
        have hrec := ih ⟨st.proxies ++ uniq, st.generated + uniq.length, st.attempts + bs⟩
          (by simp only; omega) (by simp only; omega) (by simp only [List.length_append]; omega)
        refine ⟨?_, hrec.2.1, hrec.2.2⟩
        simp only [specRoundsOk, Bool.and_eq_true, decide_eq_true_eq]
        rw [hlen]
        refine ⟨?_, hrec.1⟩
        simp [hcond.1, hcond.2, hlen]
      · simp only [genRounds, if_neg hcond, specRoundsOk, Bool.and_eq_true, decide_eq_true_eq,
          eq_self_iff_true, true_and]
        refine ⟨?_, h2, h3⟩
        omega

theorem genRounds_accepted (t : Template) (sS sH : Nat → Nat) (st0 : Store) (amount : Nat) :
    ∀ fuel gst p,
      p ∈ (genRounds t sS sH (checkDuplicateProxies st0 false) amount fuel gst).1.proxies →
      p ∈ gst.proxies ∨ p ∉ storeStrings st0 := by
  intro fuel
  induction fuel with
  | zero =>
      intro gst p hp
      simp only [genRounds] at hp
      exact Or.inl hp
  | succ fuel ih =>
      intro gst p hp
      by_cases hcond : gst.generated < amount ∧ gst.attempts < amount * 10
      · simp only [genRounds, if_pos hcond] at hp
        rcases ih _ p hp with hin | habs
        · rcases List.mem_append.mp hin with h1 | h2
          · exact Or.inl h1
          · right
            intro hstore
            have hf := List.mem_filter.mp h2
            have hcontains : ((checkDuplicateProxies st0 false
                ((List.range (min 100 (amount - gst.generated))).map
                  (fun i => formatProxy t (sS (gst.attempts + i))
                    (sH (gst.attempts + i))))).contains p) = false := by
              simpa using hf.2
            have hmemdup : p ∈ checkDuplicateProxies st0 false
                ((List.range (min 100 (amount - gst.generated))).map
                  (fun i => formatProxy t (sS (gst.attempts + i))
                    (sH (gst.attempts + i)))) := by
              unfold checkDuplicateProxies
              simp only [Bool.false_eq_true, if_false]
              exact List.mem_filter.mpr ⟨hstore, by simp [hf.1]⟩
            have htrue : ((checkDuplicateProxies st0 false
                ((List.range (min 100 (amount - gst.generated))).map
                  (fun i => formatProxy t (sS (gst.attempts + i))
                    (sH (gst.attempts + i))))).contains p) = true :=
              List.elem_eq_true_of_mem hmemdup
            rw [htrue] at hcontains
            simp at hcontains
        · exact Or.inr habs
      · simp only [genRounds, if_neg hcond] at hp
        exact Or.inl hp

/-- C1: counterexample — one generate-then-commit call from the empty
store, with a constant randomness stream making both candidates of the
round equal, persists the same proxyString twice: the round's oracle check
only filters against the store, not within the batch, and the insert path
and schema never reject duplicates. -/
theorem c1_duplicate_strings_persisted :
    storeStrings (generateThenCommit sampleTemplate zeroSeed zeroSeed 7
        (some 2) emptyStore).1 = [samplePStr, samplePStr] ∧
    ¬ (storeStrings (generateThenCommit sampleTemplate zeroSeed zeroSeed 7
        (some 2) emptyStore).1).Nodup := by
  exact ⟨by decide, by decide⟩

/-- C1 (amended): every candidate accepted by a generation run against the
live store was absent from the store at the round's oracle-check time; the
code enforces no more than that, so equal candidates within one round, or
re-commits of the same displayed set, do persist duplicates. -/
theorem c1_round_accepts_only_absent (t : Template) (sS sH : Nat → Nat) (st : Store)
    (bulkAmount : Option Int) (proxies : List String) (shortfall : Nat)
    (h : generateProxies t sS sH (checkDuplicateProxies st false) bulkAmount =
      GenResult.ok proxies shortfall) :
    ∀ p ∈ proxies, p ∉ storeStrings st := by
  intro p hp
  simp only [generateProxies] at h
  split at h
  · exact absurd h (by simp)
  · split at h
    · exact absurd h (by simp)
    · injection h with h1 h2
      rw [← h1] at hp
      rcases genRounds_accepted t sS sH st (jsParseIntOr1 bulkAmount).toNat
        ((jsParseIntOr1 bulkAmount).toNat * 10 + 1) ⟨[], 0, 0⟩ p hp with hin | habs
      · simp at hin
      · exact habs

theorem c1_round_accepts_only_absent_witness :
    (generateProxies sampleTemplate zeroSeed zeroSeed
        (checkDuplicateProxies emptyStore false) (some 1) =
      GenResult.ok [samplePStr] 0) ∧
    ∀ p ∈ [samplePStr], p ∉ storeStrings emptyStore :=
  ⟨by decide, c1_round_accepts_only_absent sampleTemplate zeroSeed zeroSeed emptyStore
    (some 1) [samplePStr] 0 (by decide)⟩

/-- C2: counterexample — when the record insert fails after the batch row
was created, `saveGeneratedProxies` throws but leaves the batch row in the
store: a batch attributed `total_generated = 1` with zero persisted
records, neither rolled back nor cleaned up. -/
theorem c2_orphan_batch_left_behind :
    (saveGeneratedProxies emptyStore false true 7 [sampleRow]).2 =
      Except.error "Failed to save proxies" ∧
    (saveGeneratedProxies emptyStore false true 7 [sampleRow]).1.batches = [⟨0, 7, 1⟩] ∧
    ((saveGeneratedProxies emptyStore false true 7 [sampleRow]).1.proxies.filter
      (fun e => e.batch_id == 0)).length = 0 := by
  exact ⟨rfl, by decide, by decide⟩

/-- C2 (amended): on success `saveGeneratedProxies` inserts one batch row
with `totalGenerated = records.length` and tags every record with that
batch id, so the total matches the persisted count; but when the record
insert fails after the batch row is created, the error propagates and the
orphaned batch row remains, attributed `records.length` with zero
persisted records. -/
theorem c2_commit_totals (st : Store) (apiKeyId : Nat) (rows : List ProxyRow)
    (hwf : ∀ e ∈ st.proxies, e.batch_id < st.batches.length) (hne : rows ≠ []) :
    (saveGeneratedProxies st false false apiKeyId rows).2 = Except.ok st.batches.length ∧
    (saveGeneratedProxies st false false apiKeyId rows).1.batches =
      st.batches ++ [⟨st.batches.length, apiKeyId, rows.length⟩] ∧
    ((saveGeneratedProxies st false false apiKeyId rows).1.proxies.filter
      (fun e => e.batch_id == st.batches.length)).length = rows.length ∧
    (saveGeneratedProxies st false true apiKeyId rows).2 =
      Except.error "Failed to save proxies" ∧
    (saveGeneratedProxies st false true apiKeyId rows).1.batches =
      st.batches ++ [⟨st.batches.length, apiKeyId, rows.length⟩] ∧
    (saveGeneratedProxies st false true apiKeyId rows).1.proxies = st.proxies := by
  have hlen0 : ¬ rows.length = 0 := fun h => hne (List.length_eq_zero.mp h)
  refine ⟨?_, ?_, ?_, ?_, ?_, ?_⟩
  · simp [saveGeneratedProxies, hlen0]
  · simp [saveGeneratedProxies, hlen0]
  · simp only [saveGeneratedProxies, Bool.false_eq_true, if_false, if_neg hlen0]
    rw [List.filter_append]
    have h1 : st.proxies.filter (fun e => e.batch_id == st.batches.length) = [] := by
      rw [List.filter_eq_nil_iff]
      intro e he
      have := hwf e he
      simp only [beq_iff_eq]
      omega
    have h2 : ((rows.map (fun r => (⟨r, apiKeyId, st.batches.length⟩ : StoredProxy))).filter
        (fun e => e.batch_id == st.batches.length)) =
        rows.map (fun r => (⟨r, apiKeyId, st.batches.length⟩ : StoredProxy)) := by
      rw [List.filter_eq_self]
      intro e he
      obtain ⟨r, hr, hre⟩ := List.mem_map.mp he
      subst hre
      simp
    rw [h1, h2]
    simp
  · simp [saveGeneratedProxies]
  · simp [saveGeneratedProxies]
  · simp [saveGeneratedProxies]

theorem c2_commit_totals_witness :
    (∀ e ∈ emptyStore.proxies, e.batch_id < emptyStore.batches.length) ∧
    [sampleRow] ≠ [] ∧
    ((saveGeneratedProxies emptyStore false false 7 [sampleRow]).2 =
      Except.ok emptyStore.batches.length ∧
    (saveGeneratedProxies emptyStore false false 7 [sampleRow]).1.batches =
      emptyStore.batches ++ [⟨emptyStore.batches.length, 7, [sampleRow].length⟩] ∧
    ((saveGeneratedProxies emptyStore false false 7 [sampleRow]).1.proxies.filter
      (fun e => e.batch_id == emptyStore.batches.length)).length = [sampleRow].length ∧
    (saveGeneratedProxies emptyStore false true 7 [sampleRow]).2 =
      Except.error "Failed to save proxies" ∧
    (saveGeneratedProxies emptyStore false true 7 [sampleRow]).1.batches =
      emptyStore.batches ++ [⟨emptyStore.batches.length, 7, [sampleRow].length⟩] ∧
    (saveGeneratedProxies emptyStore false true 7 [sampleRow]).1.proxies =
      emptyStore.proxies) :=
  ⟨by decide, by decide,
   c2_commit_totals emptyStore 7 [sampleRow] (by decide) (by decide)⟩

/-- C3: counterexample — on a failed query `checkDuplicateProxies` returns
the empty list, reporting a stored string as absent: the error is swallowed
and the answer is "no duplicates exist", not a propagated
store-unavailable failure. -/
theorem c3_failed_query_reports_no_duplicates :
    samplePStr ∈ storeStrings seededStore ∧
    checkDuplicateProxies seededStore true [samplePStr] = [] := by
  exact ⟨by decide, by decide⟩

/-- C3 (amended): on a successful query the oracle returns exactly the
candidate strings present in the store (no false negatives); but on a
store failure it returns the empty list — the "no duplicates" answer —
instead of propagating an error. -/
theorem c3_oracle_exact_or_empty (st : Store) (cands : List String) (s : String) :
    (s ∈ checkDuplicateProxies st false cands ↔ s ∈ storeStrings st ∧ s ∈ cands) ∧
    checkDuplicateProxies st true cands = [] := by
  constructor
  · unfold checkDuplicateProxies
    simp only [Bool.false_eq_true, if_false, List.mem_filter]
    constructor
    · rintro ⟨h1, h2⟩
      exact ⟨h1, List.mem_of_elem_eq_true h2⟩
    · rintro ⟨h1, h2⟩
      exact ⟨h1, List.elem_eq_true_of_mem h2⟩
  · rfl

/-- C4: counterexample — a requested quantity of 0 (outside [1,5000]) is
not rejected with an InvalidQuantity error: `parseInt(bulkAmount) || 1`
silently coerces it to 1 and the call succeeds. -/
theorem c4_zero_quantity_not_rejected :
    generateProxies sampleTemplate zeroSeed zeroSeed
      (checkDuplicateProxies emptyStore false) (some 0) =
      GenResult.ok [samplePStr] 0 ∧
    GenResult.ok [samplePStr] 0 ≠ GenResult.invalidQuantity := by
  exact ⟨by decide, by decide⟩

/-- C4 (amended): only quantities above 5000 fail with InvalidQuantity
(with no store writes); a quantity of 0 (or an unparsable one) is silently
coerced to 1, and a negative quantity runs zero rounds and surfaces the
ExhaustedRetries failure — also without store writes — rather than
InvalidQuantity. -/
theorem c4_quantity_validation (t : Template) (sS sH : Nat → Nat)
    (oracle : List String → List String) (apiKeyId : Nat) (st : Store) (v w : Int)
    (hv : 5000 < v) (hw : w < 0) :
    generateThenCommit t sS sH apiKeyId (some v) st = (st, GenResult.invalidQuantity) ∧
    generateThenCommit t sS sH apiKeyId (some w) st = (st, GenResult.exhaustedRetries) ∧
    generateProxies t sS sH oracle (some 0) = generateProxies t sS sH oracle (some 1) ∧
    generateProxies t sS sH oracle none = generateProxies t sS sH oracle (some 1) := by
  have hv0 : ¬ v = 0 := by omega
  have hw0 : ¬ w = 0 := by omega
  have hw5 : ¬ (5000 : Int) < w := by omega
  have hwt : w.toNat = 0 := Int.toNat_of_nonpos (by omega)
  refine ⟨?_, ?_, rfl, rfl⟩
  · unfold generateThenCommit
    simp [generateProxies, jsParseIntOr1, hv0, hv]
  · unfold generateThenCommit
    simp [generateProxies, jsParseIntOr1, hw0, hw5, hwt, genRounds]

theorem c4_quantity_validation_witness :
    (5000 : Int) < 5001 ∧ (-1 : Int) < 0 ∧
    (generateThenCommit sampleTemplate zeroSeed zeroSeed 7 (some 5001) emptyStore =
      (emptyStore, GenResult.invalidQuantity) ∧
    generateThenCommit sampleTemplate zeroSeed zeroSeed 7 (some (-1)) emptyStore =
      (emptyStore, GenResult.exhaustedRetries) ∧
    generateProxies sampleTemplate zeroSeed zeroSeed
      (checkDuplicateProxies emptyStore false) (some 0) =
      generateProxies sampleTemplate zeroSeed zeroSeed
        (checkDuplicateProxies emptyStore false) (some 1) ∧
    generateProxies sampleTemplate zeroSeed zeroSeed
      (checkDuplicateProxies emptyStore false) none =
      generateProxies sampleTemplate zeroSeed zeroSeed
        (checkDuplicateProxies emptyStore false) (some 1)) :=
  ⟨by decide, by decide,
   c4_quantity_validation sampleTemplate zeroSeed zeroSeed
     (checkDuplicateProxies emptyStore false) 7 emptyStore 5001 (-1)
     (by decide) (by decide)⟩

/-- C5: counterexample — the generator never calls the Country Resolver on
the template's country input: for the free-text input "bangladesh", which
the resolver maps to the canonical code "bd", the emitted token is the raw
input `lv_bangladesh`, not `lv_bd`. -/
theorem c5_raw_country_emitted :
    formatProxy bangladeshTemplate 0 0 = "h:80:u-lv_bangladesh-100000:pw" ∧
    findCountryCode "bangladesh" = some "bd" ∧
    formatProxy bangladeshTemplate 0 0 ≠ "h:80:u-lv_bd-100000:pw" := by
  exact ⟨by decide, by decide, by decide⟩

/-- C5 (amended): `format` composes
`host:port:userId-countryToken-sessionId:password` where the countryToken
is the template's raw country input — not a resolver result — with the UK
alias `uk` rewritten to `gb` and a `lv_` marker prepended unless the token
already contains an underscore. -/
theorem c5_format_token_composition (t : Template) (a b : Nat) :
    formatProxy t a b =
      String.mk (replaceShard (randShard b) t.host.data) ++ ":" ++ t.port ++ ":" ++
        t.userId ++ "-" ++ specCountryToken t.country ++ "-" ++
        String.mk (sixDigits (randSession a)) ++ ":" ++ t.password ∧
    specCountryToken "uk" = "lv_gb" :=
  ⟨rfl, by decide⟩

/-- C6: counterexample — an input with five colon-separated segments is
accepted by `parseProxyString` (the extra segment is dropped), while the
claim requires exactly four segments and a malformed report otherwise. -/
theorem c6_five_segment_accepted :
    (jsSplit ':' "a:1:u-lv_us-123:p:x".data).length = 5 ∧
    (parseProxyString "a:1:u-lv_us-123:p:x").isSome = true := by
  exact ⟨by decide, by decide⟩

/-- C6 (amended): `parse` succeeds exactly on non-blank strings that split
on ":" into at least 4 segments and whose trimmed third segment splits on
"-" into at least 3 segments; everything else yields a null result (never
an exception), and segments beyond the fourth are ignored rather than
rejected. -/
theorem c6_parse_acceptance (s : String) :
    (parseProxyString s).isSome = true ↔
      ((jsTrim s.data).isEmpty = false ∧ 4 ≤ (jsSplit ':' s.data).length ∧
       3 ≤ (jsSplit '-' (jsTrim ((jsSplit ':' s.data).getD 2 []))).length) := by
  unfold parseProxyString
  by_cases h1 : (jsTrim s.data).isEmpty = true
  · simp [h1]
  · by_cases h2 : 4 ≤ (jsSplit ':' s.data).length
    · by_cases h3 : 3 ≤ (jsSplit '-' (jsTrim ((jsSplit ':' s.data).getD 2 []))).length
      · simp [h1, h2, h3]
      · simp [h1, h2, h3]
    · simp [h1, h2]

/-- C7: for every template, randomness stream, oracle and quantity in
[1,5000], the generation loop follows the round contract: each executed
round runs only while `generated < quantity` and `attempts < quantity*10`,
synthesizes exactly `min(100, quantity - generated)` fresh candidates,
queries the oracle once, keeps exactly the candidates the oracle did not
report, advances `attempts` by the batch size, and the loop stops exactly
when `generated` reaches the quantity or `attempts` reaches the budget;
`generated` never exceeds the quantity and counts the accepted proxies. -/
theorem c7_round_structure (t : Template) (sS sH : Nat → Nat)
    (oracle : List String → List String) (amount : Nat)
    (h1 : 1 ≤ amount) (h2 : amount ≤ 5000) :
    specRoundsOk t sS sH oracle amount ⟨[], 0, 0⟩
        (genRounds t sS sH oracle amount (amount * 10 + 1) ⟨[], 0, 0⟩).2
        (genRounds t sS sH oracle amount (amount * 10 + 1) ⟨[], 0, 0⟩).1 = true ∧
    (genRounds t sS sH oracle amount (amount * 10 + 1) ⟨[], 0, 0⟩).1.generated ≤ amount ∧
    (genRounds t sS sH oracle amount (amount * 10 + 1) ⟨[], 0, 0⟩).1.proxies.length =
      (genRounds t sS sH oracle amount (amount * 10 + 1) ⟨[], 0, 0⟩).1.generated :=
  genRounds_spec t sS sH oracle amount (amount * 10 + 1) ⟨[], 0, 0⟩
    (by show amount * 10 ≤ 0 + (amount * 10 + 1); omega)
    (by show 0 ≤ amount; omega) rfl

theorem c7_round_structure_witness :
    1 ≤ 1 ∧ 1 ≤ 5000 ∧
    (specRoundsOk sampleTemplate zeroSeed zeroSeed
        (checkDuplicateProxies emptyStore false) 1 ⟨[], 0, 0⟩
        (genRounds sampleTemplate zeroSeed zeroSeed
          (checkDuplicateProxies emptyStore false) 1 (1 * 10 + 1) ⟨[], 0, 0⟩).2
        (genRounds sampleTemplate zeroSeed zeroSeed
          (checkDuplicateProxies emptyStore false) 1 (1 * 10 + 1) ⟨[], 0, 0⟩).1 = true ∧
    (genRounds sampleTemplate zeroSeed zeroSeed
      (checkDuplicateProxies emptyStore false) 1 (1 * 10 + 1) ⟨[], 0, 0⟩).1.generated ≤ 1 ∧
    (genRounds sampleTemplate zeroSeed zeroSeed
      (checkDuplicateProxies emptyStore false) 1 (1 * 10 + 1) ⟨[], 0, 0⟩).1.proxies.length =
      (genRounds sampleTemplate zeroSeed zeroSeed
        (checkDuplicateProxies emptyStore false) 1 (1 * 10 + 1) ⟨[], 0, 0⟩).1.generated) :=
  ⟨by decide, by decide,
   c7_round_structure sampleTemplate zeroSeed zeroSeed
     (checkDuplicateProxies emptyStore false) 1 (by decide) (by decide)⟩

/-- C8: for every quantity in [1,5000], when the generation loop ends with
zero accepted candidates the call fails with ExhaustedRetries, and when it
ends with some accepted candidates the call succeeds with the accepted
proxies and the shortfall `quantity - generated`, which is non-zero
whenever fewer than the requested quantity were accepted. -/
theorem c8_zero_vs_partial (t : Template) (sS sH : Nat → Nat)
    (oracle : List String → List String) (v : Int) (h1 : 1 ≤ v) (h2 : v ≤ 5000) :
    ((genRounds t sS sH oracle v.toNat (v.toNat * 10 + 1) ⟨[], 0, 0⟩).1.generated = 0 →
      generateProxies t sS sH oracle (some v) = GenResult.exhaustedRetries) ∧
    ((genRounds t sS sH oracle v.toNat (v.toNat * 10 + 1) ⟨[], 0, 0⟩).1.generated ≠ 0 →
      generateProxies t sS sH oracle (some v) =
        GenResult.ok (genRounds t sS sH oracle v.toNat (v.toNat * 10 + 1) ⟨[], 0, 0⟩).1.proxies
          (v.toNat - (genRounds t sS sH oracle v.toNat (v.toNat * 10 + 1) ⟨[], 0, 0⟩).1.generated) ∧
      ((genRounds t sS sH oracle v.toNat (v.toNat * 10 + 1) ⟨[], 0, 0⟩).1.generated < v.toNat →
        0 < v.toNat - (genRounds t sS sH oracle v.toNat
          (v.toNat * 10 + 1) ⟨[], 0, 0⟩).1.generated)) := by
  have hv0 : ¬ v = 0 := by omega
  have hv5 : ¬ (5000 : Int) < v := by omega
  constructor
  · intro hzero
    simp [generateProxies, jsParseIntOr1, hv0, hv5, hzero]
  · intro hnz
    refine ⟨?_, fun hlt => by omega⟩
    simp [generateProxies, jsParseIntOr1, hv0, hv5, hnz]

theorem c8_zero_vs_partial_witness :
    (1 : Int) ≤ 1 ∧ (1 : Int) ≤ 5000 ∧
    (((genRounds sampleTemplate zeroSeed zeroSeed (fun bt => bt) (1 : Int).toNat
        ((1 : Int).toNat * 10 + 1) ⟨[], 0, 0⟩).1.generated = 0 →
      generateProxies sampleTemplate zeroSeed zeroSeed (fun bt => bt) (some 1) =
        GenResult.exhaustedRetries) ∧
    ((genRounds sampleTemplate zeroSeed zeroSeed (fun bt => bt) (1 : Int).toNat
        ((1 : Int).toNat * 10 + 1) ⟨[], 0, 0⟩).1.generated ≠ 0 →
      generateProxies sampleTemplate zeroSeed zeroSeed (fun bt => bt) (some 1) =
        GenResult.ok (genRounds sampleTemplate zeroSeed zeroSeed (fun bt => bt) (1 : Int).toNat
          ((1 : Int).toNat * 10 + 1) ⟨[], 0, 0⟩).1.proxies
          ((1 : Int).toNat - (genRounds sampleTemplate zeroSeed zeroSeed (fun bt => bt)
            (1 : Int).toNat ((1 : Int).toNat * 10 + 1) ⟨[], 0, 0⟩).1.generated) ∧
      ((genRounds sampleTemplate zeroSeed zeroSeed (fun bt => bt) (1 : Int).toNat
          ((1 : Int).toNat * 10 + 1) ⟨[], 0, 0⟩).1.generated < (1 : Int).toNat →
        0 < (1 : Int).toNat - (genRounds sampleTemplate zeroSeed zeroSeed (fun bt => bt)
          (1 : Int).toNat ((1 : Int).toNat * 10 + 1) ⟨[], 0, 0⟩).1.generated))) :=
  ⟨by decide, by decide,
   c8_zero_vs_partial sampleTemplate zeroSeed zeroSeed (fun bt => bt) 1
     (by decide) (by decide)⟩

/-- C9: counterexample — a record accepted by generate whose password
contains a colon does not satisfy the round-trip law even modulo the
randomized fields: the parsed password is the part before the colon. -/
theorem c9_roundtrip_fails_on_colon_password :
    parseProxyString (formatProxy colonPasswordTemplate 0 0) =
      some ⟨"h", "80", "u", "us", "100000", "p"⟩ ∧
    colonPasswordTemplate.password ≠ "p" := by
  exact ⟨by decide, by decide⟩

/-- C9 (amended): for templates whose host, port, userId and password
contain no whitespace and no colon, whose userId contains no dash, and
whose country is one of the canonical 2-letter codes,
`parse(format(record))` recovers the record modulo the randomized
host-shard and session-id fields, and every draw of those fields falls in
the declared ranges: shard in [1,15] and session id in [100000,999999]. -/
theorem c9_roundtrip_modulo_randomized (t : Template) (a b : Nat)
    (hh : ∀ c ∈ t.host.data, c.isWhitespace = false ∧ c ≠ ':')
    (hp : ∀ c ∈ t.port.data, c.isWhitespace = false ∧ c ≠ ':')
    (hu : ∀ c ∈ t.userId.data, c.isWhitespace = false ∧ c ≠ ':' ∧ c ≠ '-')
    (hw : ∀ c ∈ t.password.data, c.isWhitespace = false ∧ c ≠ ':')
    (hc : t.country ∈ countries.map Country.code) :
    parseProxyString (formatProxy t a b) =
      some ⟨String.mk (replaceShard (randShard b) t.host.data), t.port, t.userId, t.country,
            String.mk (sixDigits (randSession a)), t.password⟩ ∧
    1 ≤ randShard b ∧ randShard b ≤ 15 ∧
    100000 ≤ randSession a ∧ randSession a ≤ 999999 := by
  refine ⟨parse_format t a b hh hp hu hw hc, ?_, ?_, ?_, ?_⟩
  · unfold randShard; omega
  · unfold randShard; omega
  · unfold randSession; omega
  · unfold randSession; omega

theorem c9_roundtrip_modulo_randomized_witness :
    (∀ c ∈ scenarioTemplate.host.data, c.isWhitespace = false ∧ c ≠ ':') ∧
    (∀ c ∈ scenarioTemplate.port.data, c.isWhitespace = false ∧ c ≠ ':') ∧
    (∀ c ∈ scenarioTemplate.userId.data, c.isWhitespace = false ∧ c ≠ ':' ∧ c ≠ '-') ∧
    (∀ c ∈ scenarioTemplate.password.data, c.isWhitespace = false ∧ c ≠ ':') ∧
    scenarioTemplate.country ∈ countries.map Country.code ∧
    (parseProxyString (formatProxy scenarioTemplate 0 0) =
      some ⟨String.mk (replaceShard (randShard 0) scenarioTemplate.host.data),
            scenarioTemplate.port, scenarioTemplate.userId, scenarioTemplate.country,
            String.mk (sixDigits (randSession 0)), scenarioTemplate.password⟩ ∧
    1 ≤ randShard 0 ∧ randShard 0 ≤ 15 ∧
    100000 ≤ randSession 0 ∧ randSession 0 ≤ 999999) :=
  ⟨by decide, by decide, by decide, by decide, by decide,
   c9_roundtrip_modulo_randomized scenarioTemplate 0 0
     (by decide) (by decide) (by decide) (by decide) (by decide)⟩

/-- C10: counterexample — `resolveCountry("Britain")` and
`resolveCountry("UK")` do not resolve to the same canonical code: the bare
two-letter-suffix pattern extracts "in" from "britain" and matches India
before any name or alias matching is reached. -/
theorem c10_britain_resolves_differently :
    findCountryCode "Britain" = some "in" ∧ findCountryCode "UK" = some "uk" ∧
    findCountryCode "Britain" ≠ findCountryCode "UK" := by
  exact ⟨by decide, by decide, by decide⟩

/-- C10 (amended): under the resolver's ordered algorithm, "UK" and
"gb_residential" both resolve to "uk", "atlantis" is not found, but
"Britain" resolves to "in" (India) because the positional bare
two-letter-suffix pattern fires before exact name/alias matching. -/
theorem c10_resolver_results :
    findCountryCode "UK" = some "uk" ∧
    findCountryCode "gb_residential" = some "uk" ∧
    findCountryCode "Britain" = some "in" ∧
    findCountryCode "atlantis" = none := by
  exact ⟨by decide, by decide, by decide, by decide⟩
